import Mathlib

/-!
Shallow embedding of the news-search web application (`src/main.go`).

The program is a small HTTP front-end over a third-party news API:
it parses `q` and `page` query parameters, builds an upstream GET URL,
decodes the upstream JSON (or error envelope), maintains a per-request
pagination state (`Search`), and renders a template.

Modelling conventions:
- Go `int` is modelled as `Int` (no arithmetic in the program approaches
  64-bit overflow on the inputs the claims quantify over); Go integer
  division (truncation toward zero) is `Int.div`.
- `strconv.Atoi` is modelled byte-for-byte on its grammar (optional sign,
  one or more ASCII digits, 64-bit range check).
- `url.QueryEscape` is modelled on the UTF-8 bytes of the string: bytes
  that are ASCII alphanumerics or `-`, `_`, `.`, `~` pass through, a space
  becomes `+`, and every other byte becomes `%XX` with uppercase hex.
- JSON decoding is external (`encoding/json`); the handler model receives
  the decode outcomes as oracle inputs (`FetchOutcome`), since the
  handler's behaviour depends only on whether each decode succeeded and on
  the decoded value.
- `http.Error(w, msg, code)` writes `msg` followed by a newline as the
  body; `w.WriteHeader(code)` alone writes an empty body.
- `int(math.Ceil(float64(x)))` where `x` is already a Go `int` is modelled
  in two steps. `float64(x)` rounds `x` to the nearest representable
  double (round-to-nearest, ties-to-even); for `|x| ≥ 2^52` doubles are
  integrally spaced, so the resulting value is always an integer, and it
  is exact only for `|x| ≤ 2^53`. That integral value is modelled exactly
  (`float64OfInt`). `math.Ceil` and the `int(...)` conversion are then the
  identity on an integral double whose magnitude fits in `int64` (the
  quotients reachable here are at most `(2^63-1)/20 < 2^62`, so
  rounding never leaves `int64` range); they are modelled as the exact
  ceiling (`ceilFloat`).
-/

namespace NewsApp

/-- Source of news (Go struct `Source`); the loosely typed `id` field is
opaque and irrelevant to every claim, modelled as an optional string. -/
structure Source where
  id : Option String
  name : String
  deriving DecidableEq, Repr

/-- One article (Go struct `Article`); `publishedAt` (a `time.Time`) is
modelled as an opaque timestamp value. -/
structure Article where
  source : Source
  author : String
  title : String
  description : String
  url : String
  urlToImage : String
  publishedAt : Nat
  content : String
  deriving DecidableEq, Repr

/-- Upstream success envelope (Go struct `Results`). -/
structure Results where
  Status : String
  TotalResults : Int
  Articles : List Article
  deriving DecidableEq, Repr

/-- Per-request pagination state (Go struct `Search`). -/
structure Search where
  SearchKey : String
  NextPage : Int
  TotalPages : Int
  Results : Results
  deriving DecidableEq, Repr

/-- Upstream error envelope (Go struct `NewsAPIError`). -/
structure NewsAPIError where
  Status : String
  Code : String
  Message : String
  deriving DecidableEq, Repr

/-- Go `func (s *Search) IsLastPage() bool { return s.NextPage >= s.TotalPages }`. -/
def Search.IsLastPage (s : Search) : Bool :=
  decide (s.NextPage ≥ s.TotalPages)

/-- Go `func (s *Search) CurrentPage() int`: returns `NextPage` when it is 1,
else `NextPage - 1`. -/
def Search.CurrentPage (s : Search) : Int :=
  if s.NextPage = 1 then s.NextPage else s.NextPage - 1

/-- Go `func (s *Search) PreviousPage() int { return s.CurrentPage() - 1 }`. -/
def Search.PreviousPage (s : Search) : Int :=
  s.CurrentPage - 1

/-- Decimal value of a list of ASCII digit characters. -/
def digitsVal (l : List Char) : Nat :=
  List.foldl (fun acc d => acc * 10 + (d.toNat - 48)) 0 l

/-- Go `strconv.Atoi`: optional leading `+`/`-`, then one or more ASCII
digits; anything else errors. A value outside the 64-bit signed range
errors (`ErrRange`). `none` models a non-nil error. -/
def atoi (s : String) : Option Int :=
  match s.data with
  | [] => none
  | c :: rest =>
    let signed : Bool × List Char :=
      if c = '-' then (true, rest)
      else if c = '+' then (false, rest)
      else (false, c :: rest)
    let neg := signed.1
    let digits := signed.2
    if digits.isEmpty then none
    else if digits.all (fun d => d.isDigit) then
      let n := digitsVal digits
      if neg then
        if n ≤ 2 ^ 63 then some (-(n : Int)) else none
      else
        if n < 2 ^ 63 then some (n : Int) else none
    else none

/-- UTF-8 encoding of one character, as byte values. -/
def utf8Bytes (c : Char) : List Nat :=
  let n := c.toNat
  if n < 128 then [n]
  else if n < 2048 then [192 + n / 64, 128 + n % 64]
  else if n < 65536 then [224 + n / 4096, 128 + (n / 64) % 64, 128 + n % 64]
  else [240 + n / 262144, 128 + (n / 4096) % 64, 128 + (n / 64) % 64, 128 + n % 64]

/-- Uppercase hexadecimal digit for a value below 16 (Go uses
`"0123456789ABCDEF"` when percent-encoding). -/
def upperHexDigit (n : Nat) : Char :=
  if n < 10 then Char.ofNat (48 + n) else Char.ofNat (55 + n)

/-- A byte Go's query escaper leaves unescaped: ASCII alphanumerics and
`-`, `_`, `.`, `~`. -/
def isUnreservedByte (b : Nat) : Bool :=
  (65 ≤ b && b ≤ 90) || (97 ≤ b && b ≤ 122) || (48 ≤ b && b ≤ 57) ||
    b = 45 || b = 95 || b = 46 || b = 126

/-- Go `url.QueryEscape`: operates on the UTF-8 bytes; space becomes `+`,
unreserved bytes pass through, all other bytes become `%XX`. -/
def queryEscape (s : String) : String :=
  String.mk <|
    (s.data.flatMap utf8Bytes).flatMap fun b =>
      if b = 32 then ['+']
      else if isUnreservedByte b then [Char.ofNat b]
      else ['%', upperHexDigit (b / 16), upperHexDigit (b % 16)]

/-- The upstream URL built by `fmt.Sprintf` at `main.go:121`. -/
def endpointFor (searchKey : String) (pageSize : Int) (page : Int)
    (apiKey : String) : String :=
  "https://newsapi.org/v2/everything?q=" ++ queryEscape searchKey ++
    "&pageSize=" ++ toString pageSize ++ "&page=" ++ toString page ++
    "&apiKey=" ++ apiKey ++ "&sortBy=publishedAt&language=en"

/-- Floor of the base-2 logarithm for values below `2 ^ 64`, by structural
recursion on a fuel bound of 64 (enough for every `int64` magnitude). -/
def log2Aux : Nat → Nat → Nat
  | 0, _ => 0
  | fuel + 1, n => if n < 2 then 0 else log2Aux fuel (n / 2) + 1

/-- Floor of the base-2 logarithm of an `int64`-range value. -/
def floorLog2 (n : Nat) : Nat := log2Aux 64 n

/-- Round a non-negative integer below `2 ^ 64` to the nearest `float64`
value (IEEE 754 round-to-nearest, ties-to-even). Below `2 ^ 53` every
integer is exactly representable; above, the unit in the last place is
`2 ^ (exponent - 52)` and the integer is rounded to the nearest multiple,
ties going to the even mantissa. -/
def roundFloat64Pos (n : Nat) : Nat :=
  if n < 2 ^ 53 then n
  else
    let s := 2 ^ (floorLog2 n - 52)
    let q := n / s
    let r := n % s
    if 2 * r < s then q * s
    else if s < 2 * r then (q + 1) * s
    else if q % 2 = 0 then q * s else (q + 1) * s

/-- Go `float64(x)` for an `int` `x` of `int64` magnitude: the exact value
of the nearest double, which is always an integer on this domain. -/
def float64OfInt (x : Int) : Int :=
  if 0 ≤ x then (roundFloat64Pos x.toNat : Int)
  else -(roundFloat64Pos (-x).toNat : Int)

/-- `math.Ceil` followed by the `int(...)` conversion, applied to an
integral double of `int64` magnitude: both are the identity there, modelled
as the exact ceiling of the integer value. -/
def ceilFloat (n : Int) : Int := ⌈(n : ℚ)⌉

/-- The total-pages computation at `main.go:150`:
`int(math.Ceil(float64(TotalResults / pageSize)))`, where the inner
division is Go integer division (truncation toward zero, `Int.tdiv`) and
`float64` rounds the quotient to the nearest double before the (identity)
ceiling and conversion back. -/
def computeTotalPages (totalResults pageSize : Int) : Int :=
  ceilFloat (float64OfInt (Int.tdiv totalResults pageSize))

/-- The advance rule at `main.go:152-154`:
`if ok := !search.IsLastPage(); ok { search.NextPage++ }`. -/
def advanceAfterFetch (s : Search) : Search :=
  if !s.IsLastPage then { s with NextPage := s.NextPage + 1 } else s

/-- Outcome of the single `http.Get` call, as seen by the handler: either a
transport-level error (`err != nil`), or a response with a status code
together with the oracle outcomes of decoding its body as a
`NewsAPIError` and as a `Results` (the handler performs at most one of
the two decodings, chosen by the status code). -/
inductive FetchOutcome where
  | netError
  | response (statusCode : Nat) (errorDecode : Option NewsAPIError)
      (resultsDecode : Option Results)
  deriving DecidableEq, Repr

/-- What the handler writes back to the client: an error response with a
status code and body, or a rendered template over the final `Search`. -/
inductive Outcome where
  | errorResponse (status : Nat) (body : String)
  | rendered (s : Search)
  deriving DecidableEq, Repr

/-- One complete run of the search handler: the client-visible outcome,
whether the upstream was contacted, the URL requested (when contacted)
and the `Search` value as it stood right after the `page` parameter was
parsed (when parsing succeeded). -/
structure HandlerRun where
  outcome : Outcome
  contactedUpstream : Bool
  requestedURL : Option String
  parsedSearch : Option Search
  deriving DecidableEq, Repr

/-- Go `http.Error(w, msg, code)`: sets the status and writes the message
followed by a newline. -/
def httpError (msg : String) (status : Nat) : Outcome :=
  .errorResponse status (msg ++ "\n")

/-- The `Search` value at `main.go:108-117`: zero value, then `SearchKey`
and `NextPage` assigned (Go zero values: empty strings, 0, nil slice). -/
def initialSearch (searchKey : String) (next : Int) : Search :=
  { SearchKey := searchKey, NextPage := next, TotalPages := 0,
    Results := { Status := "", TotalResults := 0, Articles := [] } }

/-- The search handler from the point where `page` parsed successfully
(`main.go:117-159`): build the endpoint, issue the GET, and dispatch on
the outcome exactly as the source does. -/
def afterParse (apiKey searchKey : String) (next : Int)
    (fetch : String → FetchOutcome) : HandlerRun :=
  let search := initialSearch searchKey next
  let endpoint := endpointFor search.SearchKey 20 search.NextPage apiKey
  let out : Outcome :=
    match fetch endpoint with
    | .netError => .errorResponse 500 "Internal server error"
    | .response statusCode errorDecode resultsDecode =>
      if statusCode ≠ 200 then
        match errorDecode with
        | none => httpError "Unexpected server error" 500
        | some e => httpError e.Message 500
      else
        match resultsDecode with
        | none => .errorResponse 500 ""
        | some results =>
          let s1 := { search with Results := results }
          let s2 := { s1 with
            TotalPages := computeTotalPages results.TotalResults 20 }
          .rendered (advanceAfterFetch s2)
  { outcome := out, contactedUpstream := true, requestedURL := some endpoint,
    parsedSearch := some search }

/-- The search handler (`main.go:91-160`). `pageParam` is
`params.Get("page")`, which yields `""` when the parameter is absent;
`fetch` abstracts `http.Get` together with the body-decoding oracle.
(The `url.Parse(r.URL.String())` step cannot fail on an already-parsed
URL and is elided.) -/
def searchHandler (apiKey searchKey pageParam : String)
    (fetch : String → FetchOutcome) : HandlerRun :=
  let page := if pageParam = "" then "1" else pageParam
  match atoi page with
  | none =>
    { outcome := httpError "Unexpected server error" 500,
      contactedUpstream := false, requestedURL := none, parsedSearch := none }
  | some next => afterParse apiKey searchKey next fetch

/-! ### Helper lemmas (shared) -/

/-- When the `page` parameter parses, the handler proceeds to the
post-parse phase with the parsed value. -/
theorem searchHandler_parse_some (apiKey searchKey pageParam : String)
    (next : Int) (fetch : String → FetchOutcome)
    (hp : atoi (if pageParam = "" then "1" else pageParam) = some next) :
    searchHandler apiKey searchKey pageParam fetch =
      afterParse apiKey searchKey next fetch := by
  simp only [searchHandler, hp]

/-- The advance rule never changes `TotalPages`. -/
theorem advanceAfterFetch_TotalPages (s : Search) :
    (advanceAfterFetch s).TotalPages = s.TotalPages := by
  unfold advanceAfterFetch
  split <;> rfl

/-- The advance rule never changes `SearchKey` or `Results`. -/
theorem advanceAfterFetch_SearchKey (s : Search) :
    (advanceAfterFetch s).SearchKey = s.SearchKey := by
  unfold advanceAfterFetch
  split <;> rfl

/-- The `Sprintf` at `main.go:121`, with the page size instantiated to the
constant 20 and the adjacent literals merged. -/
theorem endpointFor_eq (searchKey apiKey : String) (page : Int) :
    endpointFor searchKey 20 page apiKey =
      "https://newsapi.org/v2/everything?q=" ++ queryEscape searchKey ++
        "&pageSize=20&page=" ++ toString page ++ "&apiKey=" ++ apiKey ++
        "&sortBy=publishedAt&language=en" := by
  unfold endpointFor
  simp only [String.append_assoc]
  rfl

/-- The advance rule leaves `NextPage` unchanged or increments it by one. -/
theorem advanceAfterFetch_NextPage_cases (s : Search) :
    (advanceAfterFetch s).NextPage = s.NextPage ∨
    (advanceAfterFetch s).NextPage = s.NextPage + 1 := by
  unfold advanceAfterFetch
  split
  · right; rfl
  · left; rfl

/-- Rounding to the nearest double is the identity up to `2 ^ 53`. -/
theorem roundFloat64Pos_eq_self (m : Nat) (h : m ≤ 2 ^ 53) :
    roundFloat64Pos m = m := by
  rcases Nat.lt_or_ge m (2 ^ 53) with hlt | hge
  · unfold roundFloat64Pos
    rw [if_pos hlt]
  · have hm : m = 2 ^ 53 := le_antisymm h hge
    subst hm
    decide

/-- For non-negative `totalResults` whose truncated quotient is at most
`2 ^ 53`, the total-pages computation is plain truncating (here: floor)
division by the page size: on that domain the `float64` round-trip is
exact and the ceiling is the identity on the already-truncated integer
quotient. -/
theorem computeTotalPages_eq_div (tr : Int) (htr : 0 ≤ tr)
    (hq : tr.toNat / 20 ≤ 2 ^ 53) :
    computeTotalPages tr 20 = ((tr.toNat / 20 : Nat) : Int) := by
  obtain ⟨k, rfl⟩ := Int.eq_ofNat_of_zero_le htr
  have hk : ((k : Int)).toNat = k := rfl
  rw [hk] at hq ⊢
  have h1 : Int.tdiv (k : Int) 20 = ((k / 20 : Nat) : Int) := rfl
  have h2 : float64OfInt ((k / 20 : Nat) : Int) = ((k / 20 : Nat) : Int) := by
    unfold float64OfInt
    rw [if_pos (Int.natCast_nonneg (k / 20))]
    have h3 : (((k / 20 : Nat) : Int)).toNat = k / 20 := rfl
    rw [h3, roundFloat64Pos_eq_self (k / 20) hq]
  simp only [computeTotalPages, h1, h2, ceilFloat, Int.ceil_intCast]

/-! ### Claim theorems -/

/-- C3: `isLastPage()` returns true if and only if `nextPage ≥ totalPages`,
and false otherwise (`main.go:64-66`). -/
theorem isLastPage_iff_nextPage_ge_totalPages (s : Search) :
    s.IsLastPage = true ↔ s.NextPage ≥ s.TotalPages := by
  simp [Search.IsLastPage]

/-- C4: `currentPage()` returns 1 when `nextPage = 1` and `nextPage - 1`
otherwise; `previousPage()` is always `currentPage() - 1` with no
lower-bound clamping, so it can return 0 (at `nextPage = 1`) or a negative
number (at `nextPage = 0`, where `currentPage` is `-1` and `previousPage`
is `-2`). -/
theorem currentPage_previousPage_unclamped :
    (∀ s : Search, s.NextPage = 1 → s.CurrentPage = 1) ∧
    (∀ s : Search, s.NextPage ≠ 1 → s.CurrentPage = s.NextPage - 1) ∧
    (∀ s : Search, s.PreviousPage = s.CurrentPage - 1) ∧
    ({ SearchKey := "", NextPage := 1, TotalPages := 0,
       Results := ⟨"", 0, []⟩ } : Search).PreviousPage = 0 ∧
    ({ SearchKey := "", NextPage := 0, TotalPages := 0,
       Results := ⟨"", 0, []⟩ } : Search).PreviousPage = -2 := by
  refine ⟨fun s h => ?_, fun s h => ?_, fun s => rfl, by decide, by decide⟩
  · simp [Search.CurrentPage, h]
  · simp [Search.CurrentPage, h]

/-- C10: when the fetched page `p = nextPage` satisfies `p > 1` and
`p ≥ totalPages` (the fetch was of the last page), the advance rule leaves
`nextPage = p`, and `currentPage()` then returns `p - 1`: the page reported
as current is one less than the page that was actually fetched. -/
theorem lastPage_fetch_current_off_by_one (s : Search)
    (h1 : 1 < s.NextPage) (h2 : s.NextPage ≥ s.TotalPages) :
    (advanceAfterFetch s).NextPage = s.NextPage ∧
    (advanceAfterFetch s).CurrentPage = s.NextPage - 1 := by
  have hl : s.IsLastPage = true := by
    simp [Search.IsLastPage]
    omega
  have hs : advanceAfterFetch s = s := by
    unfold advanceAfterFetch
    rw [hl]
    rfl
  rw [hs]
  refine ⟨rfl, ?_⟩
  have hne : s.NextPage ≠ 1 := by omega
  simp [Search.CurrentPage, hne]

/-- Witness for C10 at `nextPage = 3`, `totalPages = 3`: the advance rule
leaves `nextPage` at 3 and `currentPage()` reports 2. -/
theorem lastPage_fetch_current_off_by_one_witness :
    (advanceAfterFetch ⟨"", 3, 3, ⟨"", 45, []⟩⟩).NextPage = 3 ∧
    (advanceAfterFetch ⟨"", 3, 3, ⟨"", 45, []⟩⟩).CurrentPage = 3 - 1 :=
  lastPage_fetch_current_off_by_one ⟨"", 3, 3, ⟨"", 45, []⟩⟩
    (by decide) (by decide)

/-- Witness for C4: applying the theorem at `nextPage = 1` gives
`currentPage() = 1`. -/
theorem currentPage_previousPage_unclamped_witness :
    (⟨"", 1, 0, ⟨"", 0, []⟩⟩ : Search).CurrentPage = 1 :=
  currentPage_previousPage_unclamped.1 ⟨"", 1, 0, ⟨"", 0, []⟩⟩ rfl

/-- C1 counterexample: `totalResults = 180143985094819860` (which is
`20 * (2 ^ 53 + 1)`, inside `int64` and decodable) has truncating quotient
`2 ^ 53 + 1 = 9007199254740993`, but `float64` rounds that quotient
(ties-to-even) to `2 ^ 53 = 9007199254740992`, so the handler renders
`totalPages = 9007199254740992`, not the truncating quotient
(`main.go:150`). -/
theorem totalPages_float_rounding_counterexample :
    (searchHandler "KEY" "q" "1"
        (fun _ => .response 200 none
          (some ⟨"ok", 180143985094819860, []⟩))).outcome =
      .rendered ⟨"q", 2, 9007199254740992, ⟨"ok", 180143985094819860, []⟩⟩ ∧
    Int.tdiv 180143985094819860 20 = 9007199254740993 ∧
    (9007199254740992 : Int) ≠ (9007199254740993 : Int) := by
  refine ⟨by decide, by decide, by decide⟩

/-- C1 (amended): for a successfully decoded `Results` with
`totalResults ≥ 0` whose truncating quotient `totalResults / 20` is at
most `2 ^ 53` (where the `float64` round-trip at `main.go:150` is exact),
the handler sets `totalPages` to that truncating integer division, with no
rounding up for a final partial page; beyond `2 ^ 53` the `float64`
conversion rounds the quotient instead. In particular `totalResults = 45`
yields 2, not 3. -/
theorem totalPages_truncating_division
    (apiKey q p : String) (n tr : Int) (st : String) (arts : List Article)
    (errD : Option NewsAPIError) (fetch : String → FetchOutcome)
    (hp : atoi (if p = "" then "1" else p) = some n)
    (hf : fetch (endpointFor q 20 n apiKey) =
      .response 200 errD (some ⟨st, tr, arts⟩))
    (htr : 0 ≤ tr) (hq : tr.toNat / 20 ≤ 2 ^ 53) :
    (∃ s : Search, (searchHandler apiKey q p fetch).outcome = .rendered s ∧
      s.TotalPages = ((tr.toNat / 20 : Nat) : Int)) ∧
    computeTotalPages 45 20 = 2 ∧ computeTotalPages 45 20 ≠ 3 := by
  refine ⟨?_, by rw [computeTotalPages_eq_div 45 (by decide) (by decide)]; rfl,
    by rw [computeTotalPages_eq_div 45 (by decide) (by decide)]; decide⟩
  rw [searchHandler_parse_some apiKey q p n fetch hp]
  refine ⟨advanceAfterFetch ⟨q, n, computeTotalPages tr 20, ⟨st, tr, arts⟩⟩,
    ?_, ?_⟩
  · simp [afterParse, initialSearch, hf]
  · rw [advanceAfterFetch_TotalPages]
    exact computeTotalPages_eq_div tr htr hq

/-- Witness for C1 (amended): a fetch returning `totalResults = 45`
renders a state with `totalPages = 2`. -/
theorem totalPages_truncating_division_witness :
    (∃ s : Search, (searchHandler "KEY" "x" "3"
        (fun _ => .response 200 none (some ⟨"ok", 45, []⟩))).outcome =
          .rendered s ∧
      s.TotalPages = (((45 : Int).toNat / 20 : Nat) : Int)) ∧
    computeTotalPages 45 20 = 2 ∧ computeTotalPages 45 20 ≠ 3 :=
  totalPages_truncating_division "KEY" "x" "3" 3 45 "ok" [] none
    (fun _ => .response 200 none (some ⟨"ok", 45, []⟩))
    (by decide) rfl (by decide) (by decide)

/-- C2: after a successful fetch the handler renders the advanced state:
`nextPage` is incremented by exactly one when the fetched page is not the
last page (per `isLastPage`), and left unchanged otherwise; in particular
`nextPage = 1, totalPages = 3` advances to 2, and `nextPage = 3,
totalPages = 3` stays 3 (`main.go:152-154`). -/
theorem advance_rule_after_fetch
    (apiKey q p : String) (n : Int) (errD : Option NewsAPIError)
    (results : Results) (fetch : String → FetchOutcome)
    (hp : atoi (if p = "" then "1" else p) = some n)
    (hf : fetch (endpointFor q 20 n apiKey) =
      .response 200 errD (some results)) :
    (searchHandler apiKey q p fetch).outcome =
      .rendered (advanceAfterFetch
        ⟨q, n, computeTotalPages results.TotalResults 20, results⟩) ∧
    (∀ s : Search, s.IsLastPage = false →
      (advanceAfterFetch s).NextPage = s.NextPage + 1) ∧
    (∀ s : Search, s.IsLastPage = true → advanceAfterFetch s = s) ∧
    (∀ s : Search, s.NextPage = 1 → s.TotalPages = 3 →
      (advanceAfterFetch s).NextPage = 2) ∧
    (∀ s : Search, s.NextPage = 3 → s.TotalPages = 3 →
      (advanceAfterFetch s).NextPage = 3) := by
  refine ⟨?_, fun s h => ?_, fun s h => ?_, fun s h1 h2 => ?_,
    fun s h1 h2 => ?_⟩
  · rw [searchHandler_parse_some apiKey q p n fetch hp]
    simp [afterParse, initialSearch, hf]
  · simp [advanceAfterFetch, h]
  · simp [advanceAfterFetch, h]
  · have hlast : s.IsLastPage = false := by
      simp [Search.IsLastPage]
      omega
    simp [advanceAfterFetch, hlast, h1]
  · have hlast : s.IsLastPage = true := by
      simp [Search.IsLastPage]
      omega
    simp [advanceAfterFetch, hlast, h1]

/-- Witness for C2: from `page=1` with 60 results (3 pages), the rendered
state is the advanced one. -/
theorem advance_rule_after_fetch_witness :
    (searchHandler "KEY" "q" ""
        (fun _ => .response 200 none (some ⟨"ok", 60, []⟩))).outcome =
      .rendered (advanceAfterFetch
        ⟨"q", 1, computeTotalPages (⟨"ok", 60, []⟩ : Results).TotalResults 20,
          ⟨"ok", 60, []⟩⟩) ∧
    (∀ s : Search, s.IsLastPage = false →
      (advanceAfterFetch s).NextPage = s.NextPage + 1) ∧
    (∀ s : Search, s.IsLastPage = true → advanceAfterFetch s = s) ∧
    (∀ s : Search, s.NextPage = 1 → s.TotalPages = 3 →
      (advanceAfterFetch s).NextPage = 2) ∧
    (∀ s : Search, s.NextPage = 3 → s.TotalPages = 3 →
      (advanceAfterFetch s).NextPage = 3) :=
  advance_rule_after_fetch "KEY" "q" "" 1 none ⟨"ok", 60, []⟩
    (fun _ => .response 200 none (some ⟨"ok", 60, []⟩)) (by decide) rfl

/-- C5: on a non-200 upstream status the handler tries to decode the error
envelope; if it decodes, the response is status 500 with the envelope's
message verbatim as the body (`http.Error` appends a newline); if it does
not decode, the response is status 500 with the generic message
"Unexpected server error" (`main.go:132-142`). -/
theorem upstream_error_envelope
    (apiKey q p : String) (n : Int) (statusCode : Nat)
    (errD : Option NewsAPIError) (resD : Option Results)
    (fetch : String → FetchOutcome)
    (hp : atoi (if p = "" then "1" else p) = some n)
    (hf : fetch (endpointFor q 20 n apiKey) =
      .response statusCode errD resD)
    (hst : statusCode ≠ 200) :
    (∀ e : NewsAPIError, errD = some e →
      (searchHandler apiKey q p fetch).outcome =
        .errorResponse 500 (e.Message ++ "\n")) ∧
    (errD = none →
      (searchHandler apiKey q p fetch).outcome =
        .errorResponse 500 ("Unexpected server error" ++ "\n")) := by
  rw [searchHandler_parse_some apiKey q p n fetch hp]
  refine ⟨fun e he => ?_, fun he => ?_⟩ <;> subst he <;>
    simp [afterParse, initialSearch, hf, hst, httpError]

/-- Witness for C5: a 401 response carrying the `apiKeyInvalid` envelope
yields a 500 whose body is "Your API key is invalid" (plus the newline
`http.Error` appends). -/
theorem upstream_error_envelope_witness :
    (searchHandler "KEY" "bitcoin" "1"
        (fun _ => .response 401
          (some ⟨"error", "apiKeyInvalid", "Your API key is invalid"⟩)
          none)).outcome =
      .errorResponse 500 ("Your API key is invalid" ++ "\n") :=
  (upstream_error_envelope "KEY" "bitcoin" "1" 1 401
      (some ⟨"error", "apiKeyInvalid", "Your API key is invalid"⟩) none
      (fun _ => .response 401
        (some ⟨"error", "apiKeyInvalid", "Your API key is invalid"⟩) none)
      (by decide) rfl (by decide)).1
    ⟨"error", "apiKeyInvalid", "Your API key is invalid"⟩ rfl

/-- C6: a present but non-integer `page` parameter makes the handler
answer status 500 ("Unexpected server error", via `http.Error`) without
ever contacting the upstream (`main.go:111-115`). -/
theorem invalid_page_no_upstream
    (apiKey q p : String) (fetch : String → FetchOutcome)
    (hpresent : p ≠ "") (hbad : atoi p = none) :
    (searchHandler apiKey q p fetch).contactedUpstream = false ∧
    (searchHandler apiKey q p fetch).requestedURL = none ∧
    (searchHandler apiKey q p fetch).outcome =
      .errorResponse 500 ("Unexpected server error" ++ "\n") := by
  have hpage : (if p = "" then "1" else p) = p := if_neg hpresent
  simp [searchHandler, hpage, hbad, httpError]

/-- Witness for C6: `page=abc` yields the 500 with no upstream contact. -/
theorem invalid_page_no_upstream_witness :
    (searchHandler "KEY" "bitcoin" "abc"
        (fun _ => .netError)).contactedUpstream = false ∧
    (searchHandler "KEY" "bitcoin" "abc"
        (fun _ => .netError)).requestedURL = none ∧
    (searchHandler "KEY" "bitcoin" "abc" (fun _ => .netError)).outcome =
      .errorResponse 500 ("Unexpected server error" ++ "\n") :=
  invalid_page_no_upstream "KEY" "bitcoin" "abc" (fun _ => .netError)
    (by decide) (by decide)

/-- C7 counterexample: on a 200-status response whose body fails to decode
as `Results`, the handler writes only the 500 status header
(`w.WriteHeader`) - the body is the empty string, not a generic message
text such as the "Unexpected server error" / "Internal server error" used
on the other failure paths (`main.go:144-148`). -/
theorem malformed_success_body_counterexample :
    (searchHandler "KEY" "bitcoin" "1"
        (fun _ => .response 200 none none)).outcome =
      .errorResponse 500 "" ∧
    ("" : String) ≠ "Unexpected server error" ∧
    ("" : String) ≠ "Internal server error" ∧
    ("" : String) ≠ "Unexpected server error" ++ "\n" := by
  refine ⟨by decide, by decide, by decide, by decide⟩

/-- C7 (amended): on a 200-status upstream response whose body fails to
decode as `Results`, the handler responds with status 500 and an empty
body - no message text is written. -/
theorem success_decode_failure_empty_body
    (apiKey q p : String) (n : Int) (errD : Option NewsAPIError)
    (fetch : String → FetchOutcome)
    (hp : atoi (if p = "" then "1" else p) = some n)
    (hf : fetch (endpointFor q 20 n apiKey) = .response 200 errD none) :
    (searchHandler apiKey q p fetch).outcome = .errorResponse 500 "" := by
  rw [searchHandler_parse_some apiKey q p n fetch hp]
  simp [afterParse, initialSearch, hf]

/-- Witness for C7 (amended): concrete run of the decode-failure path. -/
theorem success_decode_failure_empty_body_witness :
    (searchHandler "KEY" "q" "" (fun _ => .response 200 none none)).outcome =
      .errorResponse 500 "" :=
  success_decode_failure_empty_body "KEY" "q" "" 1 none
    (fun _ => .response 200 none none) (by decide) rfl

/-- C8: whenever the `page` parameter parses to `n`, the handler contacts
the upstream with exactly one GET URL: the "everything" endpoint carrying
the URL-escaped search term, `pageSize=20`, `page=n`, the configured API
key, `sortBy=publishedAt` (most recent first) and `language=en`; in
particular `q=bitcoin&page=2` produces a call with `page=2` and
`pageSize=20` (`main.go:121`). -/
theorem upstream_url_construction
    (apiKey q p : String) (n : Int) (fetch : String → FetchOutcome)
    (hp : atoi (if p = "" then "1" else p) = some n) :
    (searchHandler apiKey q p fetch).contactedUpstream = true ∧
    (searchHandler apiKey q p fetch).requestedURL =
      some ("https://newsapi.org/v2/everything?q=" ++ queryEscape q ++
        "&pageSize=20&page=" ++ toString n ++ "&apiKey=" ++ apiKey ++
        "&sortBy=publishedAt&language=en") ∧
    (searchHandler apiKey "bitcoin" "2" fetch).requestedURL =
      some ("https://newsapi.org/v2/everything?q=bitcoin&pageSize=20&page=2&apiKey="
        ++ apiKey ++ "&sortBy=publishedAt&language=en") := by
  rw [searchHandler_parse_some apiKey q p n fetch hp,
    searchHandler_parse_some apiKey "bitcoin" "2" 2 fetch (by decide)]
  refine ⟨rfl, ?_, ?_⟩
  · show some (endpointFor q 20 n apiKey) = _
    rw [endpointFor_eq]
  · show some (endpointFor "bitcoin" 20 2 apiKey) = _
    rw [endpointFor_eq]
    rfl

/-- Witness for C8: concrete instantiation at `q=bitcoin`, `page=2`,
API key "KEY". -/
theorem upstream_url_construction_witness :
    (searchHandler "KEY" "bitcoin" "2"
        (fun _ => .netError)).contactedUpstream = true ∧
    (searchHandler "KEY" "bitcoin" "2" (fun _ => .netError)).requestedURL =
      some ("https://newsapi.org/v2/everything?q=" ++ queryEscape "bitcoin" ++
        "&pageSize=20&page=" ++ toString (2 : Int) ++ "&apiKey=" ++ "KEY" ++
        "&sortBy=publishedAt&language=en") ∧
    (searchHandler "KEY" "bitcoin" "2" (fun _ => .netError)).requestedURL =
      some ("https://newsapi.org/v2/everything?q=bitcoin&pageSize=20&page=2&apiKey="
        ++ "KEY" ++ "&sortBy=publishedAt&language=en") :=
  upstream_url_construction "KEY" "bitcoin" "2" 2 (fun _ => .netError)
    (by decide)

/-- Every rendered outcome of the post-parse phase is the advance rule
applied to the state built from the parsed page and some decoded results. -/
theorem afterParse_rendered_shape (apiKey q : String) (n : Int)
    (fetch : String → FetchOutcome) (s : Search)
    (h : (afterParse apiKey q n fetch).outcome = .rendered s) :
    ∃ results : Results,
      s = advanceAfterFetch
        ⟨q, n, computeTotalPages results.TotalResults 20, results⟩ := by
  simp only [afterParse, initialSearch] at h
  cases hfe : fetch (endpointFor q 20 n apiKey) with
  | netError => rw [hfe] at h; simp at h
  | response statusCode errD resD =>
    rw [hfe] at h
    by_cases hst : statusCode = 200
    · subst hst
      cases resD with
      | none => simp at h
      | some results =>
        simp at h
        exact ⟨results, h.symm⟩
    · cases errD with
      | none => simp [hst, httpError] at h
      | some e => simp [hst, httpError] at h

/-- C9 counterexample: the request `page=0` parses successfully, and the
`Search` state immediately after parsing has `nextPage = 0`, violating
`nextPage ≥ 1`; the handler performs no lower-bound validation before
contacting the upstream (`main.go:111-117`). -/
theorem nextPage_invariant_counterexample :
    (searchHandler "KEY" "bitcoin" "0" (fun _ => .netError)).parsedSearch =
      some ⟨"bitcoin", 0, 0, ⟨"", 0, []⟩⟩ ∧
    ¬ ((1 : Int) ≤ (0 : Int)) := by
  refine ⟨by decide, by decide⟩

/-- C9 (amended): `nextPage` is set to exactly the integer parsed from the
`page` parameter (1 when the parameter is absent) and is not modified
before the fetch, so `nextPage ≥ 1` holds immediately after parsing if
and only if the parsed value is at least 1 — the handler performs no
validation, and a `page` of 0 or a negative integer yields
`nextPage < 1`. On every rendered state the fetch can only keep
`nextPage` or increment it, so `nextPage ≥ 1` persists whenever the
parsed value was at least 1. -/
theorem nextPage_equals_parsed_page
    (apiKey q p : String) (n : Int) (fetch : String → FetchOutcome)
    (hp : atoi (if p = "" then "1" else p) = some n) :
    (∃ s0 : Search,
      (searchHandler apiKey q p fetch).parsedSearch = some s0 ∧
      s0.NextPage = n ∧ (1 ≤ n ↔ 1 ≤ s0.NextPage)) ∧
    (p = "" → n = 1) ∧
    (∀ s : Search, (searchHandler apiKey q p fetch).outcome = .rendered s →
      s.NextPage = n ∨ s.NextPage = n + 1) := by
  rw [searchHandler_parse_some apiKey q p n fetch hp]
  refine ⟨⟨initialSearch q n, rfl, rfl, Iff.rfl⟩, fun hpe => ?_, ?_⟩
  · rw [hpe] at hp
    simp [atoi, digitsVal] at hp
    omega
  · intro s hs
    obtain ⟨results, rfl⟩ := afterParse_rendered_shape apiKey q n fetch s hs
    exact advanceAfterFetch_NextPage_cases
      ⟨q, n, computeTotalPages results.TotalResults 20, results⟩

/-- Witness for C9 (amended): `page=2` parses to 2 and the parsed state
has `nextPage = 2 ≥ 1`. -/
theorem nextPage_equals_parsed_page_witness :
    (∃ s0 : Search,
      (searchHandler "KEY" "bitcoin" "2"
        (fun _ => .netError)).parsedSearch = some s0 ∧
      s0.NextPage = 2 ∧ (1 ≤ (2 : Int) ↔ 1 ≤ s0.NextPage)) ∧
    (("2" : String) = "" → (2 : Int) = 1) ∧
    (∀ s : Search,
      (searchHandler "KEY" "bitcoin" "2"
        (fun _ => .netError)).outcome = .rendered s →
      s.NextPage = 2 ∨ s.NextPage = 2 + 1) :=
  nextPage_equals_parsed_page "KEY" "bitcoin" "2" 2 (fun _ => .netError)
    (by decide)

end NewsApp
